import Mathlib

/-!
Shallow embedding of the `transactomatic` ledger engine
(`src/bank/mod.rs`, `src/bank/account.rs`, `src/bank/transaction/mod.rs`,
`src/bank/transaction/instruction.rs`).

Modelling choices:
* `rust_decimal::Decimal` is modelled as `Int` (exact decimal arithmetic:
  addition, subtraction and comparison are exact, which is all the engine
  uses); `is_sign_negative` becomes `< 0`.
* `HashMap` is modelled as a function into `Option`.
* A Rust panic (a reachable `.unwrap()` on `None`/`Err`) is modelled by the
  outer `Option` of `perform_transaction` being `none`.
* `perform_transaction` returns the mutated bank together with either the
  affected account (the `Ok(&Account)` of the source) or the error.  The
  bank is returned even in the error cases because the lazy account
  creation performed by `accounts.entry(..).or_insert_with(..)` happens
  before any error return in the source.
-/

namespace Transactomatic

/-- Model of `AccountId(pub u16)` from `src/bank/account.rs`. -/
abbrev AccountId := Nat

/-- Model of `TransactionId(pub u32)` from `src/bank/transaction/mod.rs`. -/
abbrev TransactionId := Nat

/-- Model of `rust_decimal::Decimal`, exact. -/
abbrev Decimal := Int

/-- Model of `Decimal::is_sign_negative`. -/
def is_sign_negative (d : Decimal) : Bool := d < 0

/-- The `Error` enum of `src/bank/transaction/mod.rs` (lines 23-28): exactly
three variants. -/
inductive Error where
  | InsufficientFunds
  | AccountFrozen
  | NegativeAmount
  deriving DecidableEq, Repr

/-- Model of `Account` from `src/bank/account.rs`. -/
structure Account where
  client : AccountId
  available : Decimal
  held : Decimal
  locked : Bool
  deriving DecidableEq, Repr

/-- Model of `Account::new`. -/
def Account.new (client : AccountId) : Account :=
  { client := client, available := 0, held := 0, locked := false }

/-- Model of `TransactionKind` from `src/bank/transaction/mod.rs`. -/
inductive TransactionKind where
  | Deposit
  | Withdrawal
  deriving DecidableEq, Repr

/-- Model of `TransactionAmendment` from `src/bank/transaction/mod.rs`. -/
inductive TransactionAmendment where
  | Dispute
  | Resolve
  | Chargeback
  deriving DecidableEq, Repr

/-- Model of `Transaction` from `src/bank/transaction/mod.rs`. -/
structure Transaction where
  client : AccountId
  tx : TransactionId
  kind : TransactionKind
  amount : Decimal
  amendment_history : List TransactionAmendment
  deriving DecidableEq, Repr

/-- Model of `Transaction::new`. -/
def Transaction.new (client : AccountId) (tx : TransactionId)
    (kind : TransactionKind) (amount : Decimal) : Transaction :=
  { client := client, tx := tx, kind := kind, amount := amount,
    amendment_history := [] }

/-- Model of `Transaction::is_disputed`: the last amendment is `Dispute`. -/
def Transaction.is_disputed (t : Transaction) : Bool :=
  match t.amendment_history.getLast? with
  | some TransactionAmendment.Dispute => true
  | _ => false

/-- Model of `Transaction::amend`: push onto the history. -/
def Transaction.amend (t : Transaction) (amendment : TransactionAmendment) :
    Transaction :=
  { t with amendment_history := t.amendment_history ++ [amendment] }

/-- Model of `TransactionInstructionKind` from
`src/bank/transaction/instruction.rs`. -/
inductive TransactionInstructionKind where
  | Deposit
  | Withdrawal
  | Dispute
  | Resolve
  | Chargeback
  deriving DecidableEq, Repr

/-- Model of `TransactionInstruction` from
`src/bank/transaction/instruction.rs`. -/
structure TransactionInstruction where
  kind : TransactionInstructionKind
  client : AccountId
  tx : TransactionId
  amount : Option Decimal
  deriving DecidableEq, Repr

/-- Model of `TryFromError` from `src/bank/transaction/mod.rs`. -/
structure TryFromError where
  kind : TransactionInstructionKind
  deriving DecidableEq, Repr

/-- Model of `impl TryFrom<TransactionInstruction> for Transaction`
(`src/bank/transaction/mod.rs`, lines 117-140).  The source calls
`ti.amount.unwrap()`; an instruction of kind Deposit/Withdrawal with
`amount = None` panics, modelled as the outer `none`. -/
def Transaction.try_from (ti : TransactionInstruction) :
    Option (Except TryFromError Transaction) :=
  match ti.kind with
  | TransactionInstructionKind.Deposit =>
      match ti.amount with
      | some a => some (Except.ok
          (Transaction.new ti.client ti.tx TransactionKind.Deposit a))
      | none => none
  | TransactionInstructionKind.Withdrawal =>
      match ti.amount with
      | some a => some (Except.ok
          (Transaction.new ti.client ti.tx TransactionKind.Withdrawal a))
      | none => none
  | k => some (Except.error { kind := k })

/-- Pointwise update of a keyed map (the mutation of one `HashMap` slot). -/
def upd {α : Type} (f : Nat → Option α) (k : Nat) (v : α) :
    Nat → Option α :=
  fun k2 => if k2 = k then some v else f k2

/-- Model of `Bank` from `src/bank/mod.rs`. -/
structure Bank where
  accounts : AccountId → Option Account
  transactions : TransactionId → Option Transaction

/-- Model of `Bank::new` / `Bank::default`. -/
def Bank.new : Bank :=
  { accounts := fun _ => none, transactions := fun _ => none }

/-- Model of
`self.accounts.entry(ti.client).or_insert_with(|| Account::new(ti.client))`:
the account value the engine works with. -/
def Bank.entry_or_create (b : Bank) (c : AccountId) : Account :=
  match b.accounts c with
  | some a => a
  | none => Account.new c

/-- Negative-amount pre-check (`src/bank/mod.rs`, lines 64-68). -/
def amount_check (amount : Option Decimal) : Bool :=
  match amount with
  | some a => is_sign_negative a
  | none => false

/-- Model of `Bank::perform_transaction` (`src/bank/mod.rs`, lines 53-158).

The result is `none` exactly when the source panics; otherwise
`some (b2, r)` where `b2` is the bank after the call and `r` is the
`Result<&Account, Error>` the source returns. -/
def perform_transaction (b : Bank) (ti : TransactionInstruction) :
    Option (Bank × Except Error Account) :=
  let account := b.entry_or_create ti.client
  let b1 : Bank :=
    { accounts := upd b.accounts ti.client account,
      transactions := b.transactions }
  if account.locked then
    some (b1, Except.error Error.AccountFrozen)
  else if amount_check ti.amount then
    some (b1, Except.error Error.NegativeAmount)
  else
    match ti.kind with
    | TransactionInstructionKind.Deposit =>
        match b1.transactions ti.tx with
        | some _ =>
            -- occupied entry: `tracing::error!` only, falls through to Ok
            some (b1, Except.ok account)
        | none =>
            match ti.amount with
            | none => none  -- `ti.amount.unwrap()` panics
            | some amount =>
                let account := { account with
                  available := account.available + amount }
                match Transaction.try_from ti with
                | none => none  -- panic inside `try_from`
                | some (Except.error _) => none  -- `.unwrap()` on Err panics
                | some (Except.ok txn) =>
                    some ({ accounts := upd b1.accounts ti.client account,
                            transactions := upd b1.transactions ti.tx txn },
                          Except.ok account)
    | TransactionInstructionKind.Withdrawal =>
        match b1.transactions ti.tx with
        | some _ =>
            some (b1, Except.ok account)
        | none =>
            match ti.amount with
            | none => none  -- `ti.amount.unwrap()` panics
            | some amount =>
                if account.available < amount then
                  some (b1, Except.error Error.InsufficientFunds)
                else
                  let account := { account with
                    available := account.available - amount }
                  match Transaction.try_from ti with
                  | none => none
                  | some (Except.error _) => none
                  | some (Except.ok txn) =>
                      some ({ accounts := upd b1.accounts ti.client account,
                              transactions := upd b1.transactions ti.tx txn },
                            Except.ok account)
    | TransactionInstructionKind.Dispute =>
        match b1.transactions ti.tx with
        | some prev_txn =>
            if prev_txn.client = ti.client then
              let account := { account with
                available := account.available - prev_txn.amount,
                held := account.held + prev_txn.amount }
              let txn := prev_txn.amend TransactionAmendment.Dispute
              some ({ accounts := upd b1.accounts ti.client account,
                      transactions := upd b1.transactions ti.tx txn },
                    Except.ok account)
            else
              some (b1, Except.ok account)
        | none =>
            some (b1, Except.ok account)
    | TransactionInstructionKind.Resolve =>
        match b1.transactions ti.tx with
        | some prev_txn =>
            if prev_txn.client = ti.client then
              if prev_txn.is_disputed then
                let account := { account with
                  available := account.available + prev_txn.amount,
                  held := account.held - prev_txn.amount }
                let txn := prev_txn.amend TransactionAmendment.Resolve
                some ({ accounts := upd b1.accounts ti.client account,
                        transactions := upd b1.transactions ti.tx txn },
                      Except.ok account)
              else
                some (b1, Except.ok account)
            else
              some (b1, Except.ok account)
        | none =>
            some (b1, Except.ok account)
    | TransactionInstructionKind.Chargeback =>
        match b1.transactions ti.tx with
        | some prev_txn =>
            if prev_txn.is_disputed then
              let account := { account with
                held := account.held - prev_txn.amount,
                locked := true }
              let txn := prev_txn.amend TransactionAmendment.Chargeback
              some ({ accounts := upd b1.accounts ti.client account,
                      transactions := upd b1.transactions ti.tx txn },
                    Except.ok account)
            else
              some (b1, Except.ok account)
        | none =>
            some (b1, Except.ok account)

/-- Apply a list of instructions in order, requiring every step to succeed
(`Ok`); `none` if any step panics or returns an error. -/
def applyAll (b : Bank) : List TransactionInstruction → Option Bank
  | [] => some b
  | ti :: rest =>
      match perform_transaction b ti with
      | some (b2, Except.ok _) => applyAll b2 rest
      | _ => none

/-- The `Result` component of a call, forgetting the bank. -/
def resultOf (r : Option (Bank × Except Error Account)) :
    Option (Except Error Account) :=
  r.map Prod.snd

/-- The account stored under key `c` after a (non-panicking) call. -/
def accountAfter (r : Option (Bank × Except Error Account)) (c : AccountId) :
    Option (Option Account) :=
  r.map (fun p => p.1.accounts c)

/-- The ledger entry stored under key `t` after a (non-panicking) call. -/
def txnAfter (r : Option (Bank × Except Error Account)) (t : TransactionId) :
    Option (Option Transaction) :=
  r.map (fun p => p.1.transactions t)

/-! ### Helper lemmas about pointwise map update -/

lemma upd_at {α : Type} (f : Nat → Option α) (k : Nat) (v : α) :
    upd f k v k = some v := by
  simp [upd]

lemma upd_ne {α : Type} (f : Nat → Option α) (k : Nat) (v : α) (k2 : Nat)
    (h : k2 ≠ k) : upd f k v k2 = f k2 := by
  simp [upd, h]

lemma upd_eq_of_mem {α : Type} (f : Nat → Option α) (k : Nat) (v : α)
    (h : f k = some v) : upd f k v = f := by
  funext k2
  by_cases hk : k2 = k
  · subst hk; simp [upd, h]
  · simp [upd, hk]

lemma upd_upd {α : Type} (f : Nat → Option α) (k : Nat) (v v2 : α) :
    upd (upd f k v) k v2 = upd f k v2 := by
  funext k2
  by_cases hk : k2 = k <;> simp [upd, hk]

lemma getLast_app_singleton {α : Type} (l : List α) (a : α) :
    (l ++ [a]).getLast? = some a := by
  induction l with
  | nil => rfl
  | cons x xs ih =>
      rw [List.cons_append]
      cases h : xs ++ [a] with
      | nil => exact absurd h (by simp)
      | cons y ys => rw [List.getLast?_cons_cons, ← h, ih]

/-- Amending with `Dispute` makes the transaction disputed. -/
lemma is_disputed_amend_dispute (t : Transaction) :
    (t.amend TransactionAmendment.Dispute).is_disputed = true := by
  simp [Transaction.amend, Transaction.is_disputed, getLast_app_singleton]

/-! ### Claim C1 -/

/-- Concrete scenario for C1: client 1 holds 5 available, the ledger already
contains transaction id 1. -/
def acctC1 : Account := { client := 1, available := 5, held := 0, locked := false }

def txnC1 : Transaction :=
  { client := 1, tx := 1, kind := TransactionKind.Deposit, amount := 5,
    amendment_history := [] }

def bankC1 : Bank :=
  { accounts := fun c => if c = 1 then some acctC1 else none,
    transactions := fun t => if t = 1 then some txnC1 else none }

/-- A deposit instruction reusing the already-present transaction id 1. -/
def tiC1 : TransactionInstruction :=
  { kind := TransactionInstructionKind.Deposit, client := 1, tx := 1,
    amount := some 7 }

/-- Claim C1 counterexample: a Deposit reusing an existing TransactionID (on
an unlocked account, with a non-negative amount) does not return any error:
the call returns `Ok` with the unchanged account, and neither the account
nor the ledger entry changes.  In particular no `DuplicateTransactionId`
error is returned (the error type of the engine has no such variant). -/
theorem C1_counterexample :
    resultOf (perform_transaction bankC1 tiC1) = some (Except.ok acctC1) ∧
    accountAfter (perform_transaction bankC1 tiC1) 1 = some (some acctC1) ∧
    txnAfter (perform_transaction bankC1 tiC1) 1 = some (some txnC1) := by
  refine ⟨?_, ?_, ?_⟩ <;> rfl

/-- Claim C1, amended: for every Deposit or Withdrawal instruction whose
TransactionID is already present in the ledger (on an unlocked existing
account, with a non-negative amount), `perform_transaction` silently ignores
the instruction and returns `Ok` with the unchanged account — the bank is
unchanged.  Moreover the error type of the engine has exactly the three variants
`InsufficientFunds`, `AccountFrozen` and `NegativeAmount`. -/
theorem C1_duplicate_id_silent_ok (b : Bank) (ti : TransactionInstruction)
    (acct : Account) (txn : Transaction)
    (hk : ti.kind = TransactionInstructionKind.Deposit ∨
          ti.kind = TransactionInstructionKind.Withdrawal)
    (ha : b.accounts ti.client = some acct)
    (hl : acct.locked = false)
    (hneg : amount_check ti.amount = false)
    (ht : b.transactions ti.tx = some txn) :
    perform_transaction b ti = some (b, Except.ok acct) ∧
    ∀ e : Error, e = Error.InsufficientFunds ∨ e = Error.AccountFrozen ∨
      e = Error.NegativeAmount := by
  constructor
  · have hb1 : upd b.accounts ti.client acct = b.accounts :=
      upd_eq_of_mem _ _ _ ha
    rcases hk with hk | hk <;>
      simp [perform_transaction, Bank.entry_or_create, ha, hl, hneg, hk, ht, hb1]
  · intro e; cases e <;> simp

/-- Witness for C1 at the concrete duplicate-deposit scenario. -/
theorem C1_duplicate_id_silent_ok_witness :
    perform_transaction bankC1 tiC1 = some (bankC1, Except.ok acctC1) ∧
    ∀ e : Error, e = Error.InsufficientFunds ∨ e = Error.AccountFrozen ∨
      e = Error.NegativeAmount :=
  C1_duplicate_id_silent_ok bankC1 tiC1 acctC1 txnC1 (Or.inl rfl) rfl rfl rfl rfl

/-! ### Claim C2 -/

/-- Concrete scenario for C2: transaction 1 of client 1 was disputed and then
resolved, so it is not currently disputed; the account is back to 10
available, 0 held. -/
def acctC2 : Account := { client := 1, available := 10, held := 0, locked := false }

def txnC2 : Transaction :=
  { client := 1, tx := 1, kind := TransactionKind.Deposit, amount := 10,
    amendment_history := [TransactionAmendment.Dispute,
                          TransactionAmendment.Resolve] }

def bankC2 : Bank :=
  { accounts := fun c => if c = 1 then some acctC2 else none,
    transactions := fun t => if t = 1 then some txnC2 else none }

def tiC2 : TransactionInstruction :=
  { kind := TransactionInstructionKind.Dispute, client := 1, tx := 1,
    amount := none }

/-- Claim C2 counterexample: a Dispute on a matching-client transaction whose
last amendment is `Resolve` (so `is_disputed` is false) is NOT a no-op: the
available balance drops from 10 to 0 and the held balance rises from 0 to
10, and a `Dispute` entry is appended to the history. -/
theorem C2_counterexample :
    txnC2.is_disputed = false ∧
    acctC2.available = 10 ∧ acctC2.held = 0 ∧
    resultOf (perform_transaction bankC2 tiC2) =
      some (Except.ok { client := 1, available := 0, held := 10,
                        locked := false }) ∧
    accountAfter (perform_transaction bankC2 tiC2) 1 =
      some (some { client := 1, available := 0, held := 10,
                   locked := false }) ∧
    txnAfter (perform_transaction bankC2 tiC2) 1 =
      some (some { txnC2 with amendment_history :=
        [TransactionAmendment.Dispute, TransactionAmendment.Resolve,
         TransactionAmendment.Dispute] }) := by
  refine ⟨rfl, rfl, rfl, ?_, ?_, ?_⟩ <;> rfl

/-- Claim C2, amended: a Dispute whose referenced transaction exists with
matching client (account unlocked, amount check passing) applies the
transfer `available -= amount`, `held += amount` and appends `Dispute`
unconditionally — in particular even when the transaction is not currently
disputed because its last amendment is `Resolve` or `Chargeback`; it is not
a no-op. -/
theorem C2_dispute_not_noop (b : Bank) (ti : TransactionInstruction)
    (acct : Account) (txn : Transaction)
    (hk : ti.kind = TransactionInstructionKind.Dispute)
    (ha : b.accounts ti.client = some acct)
    (hl : acct.locked = false)
    (hneg : amount_check ti.amount = false)
    (ht : b.transactions ti.tx = some txn)
    (hc : txn.client = ti.client)
    (_hnd : txn.is_disputed = false) :
    perform_transaction b ti =
      some ({ accounts := upd b.accounts ti.client
                { acct with available := acct.available - txn.amount,
                            held := acct.held + txn.amount },
              transactions := upd b.transactions ti.tx
                (txn.amend TransactionAmendment.Dispute) },
            Except.ok { acct with available := acct.available - txn.amount,
                                  held := acct.held + txn.amount }) := by
  simp [perform_transaction, Bank.entry_or_create, ha, hl, hneg, hk, ht, hc,
    upd_upd]

/-- Witness for C2 at the concrete resolved-then-redisputed scenario. -/
theorem C2_dispute_not_noop_witness :
    perform_transaction bankC2 tiC2 =
      some ({ accounts := upd bankC2.accounts 1
                { acctC2 with available := acctC2.available - txnC2.amount,
                              held := acctC2.held + txnC2.amount },
              transactions := upd bankC2.transactions 1
                (txnC2.amend TransactionAmendment.Dispute) },
            Except.ok { acctC2 with
              available := acctC2.available - txnC2.amount,
              held := acctC2.held + txnC2.amount }) :=
  C2_dispute_not_noop bankC2 tiC2 acctC2 txnC2 rfl rfl rfl rfl rfl rfl rfl

/-! ### Claim C3 -/

/-- Concrete scenario for C3: transaction 1 belongs to client 1 and is
currently disputed; client 2 has its own unlocked account. -/
def acctC3a : Account := { client := 1, available := 0, held := 10, locked := false }

def acctC3b : Account := { client := 2, available := 3, held := 0, locked := false }

def txnC3 : Transaction :=
  { client := 1, tx := 1, kind := TransactionKind.Deposit, amount := 10,
    amendment_history := [TransactionAmendment.Dispute] }

def bankC3 : Bank :=
  { accounts := fun c =>
      if c = 1 then some acctC3a else if c = 2 then some acctC3b else none,
    transactions := fun t => if t = 1 then some txnC3 else none }

/-- A Chargeback issued by client 2 against the transaction of client 1. -/
def tiC3 : TransactionInstruction :=
  { kind := TransactionInstructionKind.Chargeback, client := 2, tx := 1,
    amount := none }

/-- Claim C3 counterexample: a Chargeback whose referenced transaction
belongs to a different client (1, while the instruction names client 2) is
NOT a no-op: the held balance of client 2 drops by the disputed amount (0
to -10), the account of client 2 becomes locked, and a `Chargeback`
amendment is appended to the transaction of client 1. -/
theorem C3_counterexample :
    txnC3.client = 1 ∧ tiC3.client = 2 ∧
    accountAfter (perform_transaction bankC3 tiC3) 2 =
      some (some { client := 2, available := 3, held := -10,
                   locked := true }) ∧
    txnAfter (perform_transaction bankC3 tiC3) 1 =
      some (some { txnC3 with amendment_history :=
        [TransactionAmendment.Dispute, TransactionAmendment.Chargeback] }) := by
  refine ⟨rfl, rfl, ?_, ?_⟩ <;> rfl

/-- Claim C3, amended: for Dispute and Resolve instructions whose referenced
transaction exists but records a different client (the account of the
instruction existing
existing and unlocked, amount check passing), the instruction is a silent
no-op: the call returns `Ok` with the unchanged account and the bank is
unchanged.  Chargeback is excluded: it performs no client comparison and
applies whenever the referenced transaction is disputed. -/
theorem C3_mismatch_noop (b : Bank) (ti : TransactionInstruction)
    (acct : Account) (txn : Transaction)
    (hk : ti.kind = TransactionInstructionKind.Dispute ∨
          ti.kind = TransactionInstructionKind.Resolve)
    (ha : b.accounts ti.client = some acct)
    (hl : acct.locked = false)
    (hneg : amount_check ti.amount = false)
    (ht : b.transactions ti.tx = some txn)
    (hc : txn.client ≠ ti.client) :
    perform_transaction b ti = some (b, Except.ok acct) := by
  have hb1 : upd b.accounts ti.client acct = b.accounts :=
    upd_eq_of_mem _ _ _ ha
  rcases hk with hk | hk <;>
    simp [perform_transaction, Bank.entry_or_create, ha, hl, hneg, hk, ht, hc,
      hb1]

/-- Witness for C3: a Dispute issued by client 2 against the transaction
of client 1 is a silent no-op. -/
theorem C3_mismatch_noop_witness :
    perform_transaction bankC3
      { kind := TransactionInstructionKind.Dispute, client := 2, tx := 1,
        amount := none } = some (bankC3, Except.ok acctC3b) :=
  C3_mismatch_noop bankC3 _ acctC3b txnC3 (Or.inl rfl) rfl rfl rfl rfl
    (by decide)

/-! ### Frame lemma: a call touches only the keyed entries it names -/

/-- Any non-panicking call leaves every account other than the client of
the instruction and every ledger entry other than the tx of the
instruction unchanged. -/
lemma pt_frame (b : Bank) (ti : TransactionInstruction)
    (out : Bank × Except Error Account)
    (h : perform_transaction b ti = some out) :
    (∀ c, c ≠ ti.client → out.1.accounts c = b.accounts c) ∧
    (∀ t, t ≠ ti.tx → out.1.transactions t = b.transactions t) := by
  simp only [perform_transaction] at h
  repeat' split at h
  all_goals
    first
      | (obtain rfl := (Option.some.inj h).symm
         exact ⟨fun c hc => by simp [upd, hc], fun t htx => by simp [upd, htx]⟩)
      | simp at h

/-! ### Claim C4 -/

/-- A locked account makes every call for that client fail with
`AccountFrozen` and leave the bank unchanged (`src/bank/mod.rs`,
lines 59-62). -/
lemma locked_returns_frozen (b : Bank) (ti : TransactionInstruction)
    (acct : Account) (ha : b.accounts ti.client = some acct)
    (hl : acct.locked = true) :
    perform_transaction b ti = some (b, Except.error Error.AccountFrozen) := by
  have hb1 : upd b.accounts ti.client acct = b.accounts :=
    upd_eq_of_mem _ _ _ ha
  simp [perform_transaction, Bank.entry_or_create, ha, hl, hb1]

/-- Claim C4: once an account is locked, every subsequent instruction naming
that client returns `AccountFrozen` with the bank unchanged, and no
non-panicking call ever turns a locked account into an unlocked one. -/
theorem C4_locked_terminal :
    (∀ (b : Bank) (ti : TransactionInstruction) (acct : Account),
        b.accounts ti.client = some acct → acct.locked = true →
        perform_transaction b ti =
          some (b, Except.error Error.AccountFrozen)) ∧
    (∀ (b : Bank) (ti : TransactionInstruction)
        (out : Bank × Except Error Account) (c : AccountId)
        (acct acct2 : Account),
        perform_transaction b ti = some out →
        b.accounts c = some acct → out.1.accounts c = some acct2 →
        acct.locked = true → acct2.locked = true) := by
  constructor
  · exact fun b ti acct ha hl => locked_returns_frozen b ti acct ha hl
  · intro b ti out c acct acct2 h ha ha2 hl
    by_cases hc : c = ti.client
    · subst hc
      rw [locked_returns_frozen b ti acct ha hl] at h
      obtain rfl := (Option.some.inj h).symm
      rw [ha] at ha2
      obtain rfl := Option.some.inj ha2
      exact hl
    · rw [(pt_frame b ti out h).1 c hc, ha] at ha2
      obtain rfl := Option.some.inj ha2
      exact hl

/-- Concrete scenario for C4: client 1 is locked, client 2 is not. -/
def acctC4 : Account := { client := 1, available := 2, held := 0, locked := true }

def acctC4b : Account := { client := 2, available := 0, held := 0, locked := false }

def bankC4 : Bank :=
  { accounts := fun c =>
      if c = 1 then some acctC4 else if c = 2 then some acctC4b else none,
    transactions := fun _ => none }

def tiC4 : TransactionInstruction :=
  { kind := TransactionInstructionKind.Deposit, client := 1, tx := 5,
    amount := some 1 }

/-- An instruction for the other client (a no-op Dispute on a missing
transaction) used to witness lock preservation. -/
def tiC4b : TransactionInstruction :=
  { kind := TransactionInstructionKind.Dispute, client := 2, tx := 9,
    amount := none }

def outC4 : Bank × Except Error Account :=
  ({ accounts := upd bankC4.accounts 2 acctC4b,
     transactions := bankC4.transactions },
   Except.ok acctC4b)

/-- Witness for C4: a deposit for the locked client 1 fails with
`AccountFrozen` and changes nothing, and a call for client 2 leaves client
the locked flag of client 1 true. -/
theorem C4_locked_terminal_witness :
    perform_transaction bankC4 tiC4 =
      some (bankC4, Except.error Error.AccountFrozen) ∧
    acctC4.locked = true :=
  ⟨C4_locked_terminal.1 bankC4 tiC4 acctC4 rfl rfl,
   C4_locked_terminal.2 bankC4 tiC4b outC4 1 acctC4 acctC4 rfl rfl rfl rfl⟩

/-! ### Claim C5 -/

/-- Claim C5: a Withdrawal with a fresh TransactionID, a non-negative
amount and an existing unlocked account fails with `InsufficientFunds`
whenever the amount exceeds the available balance, leaving the bank (hence
the available, held and locked fields of the account and the whole ledger)
unchanged; and such a withdrawal can only return `Ok` when the amount is at
most the available balance. -/
theorem C5_insufficient_funds (b : Bank) (ti : TransactionInstruction)
    (acct : Account) (a : Decimal)
    (hk : ti.kind = TransactionInstructionKind.Withdrawal)
    (ha : b.accounts ti.client = some acct)
    (hl : acct.locked = false)
    (hamt : ti.amount = some a)
    (hneg : is_sign_negative a = false)
    (hfresh : b.transactions ti.tx = none) :
    (acct.available < a →
      perform_transaction b ti =
        some (b, Except.error Error.InsufficientFunds)) ∧
    (∀ (out : Bank × Except Error Account) (acct2 : Account),
      perform_transaction b ti = some out → out.2 = Except.ok acct2 →
      a ≤ acct.available) := by
  have hb1 : upd b.accounts ti.client acct = b.accounts :=
    upd_eq_of_mem _ _ _ ha
  constructor
  · intro hlt
    simp [perform_transaction, Bank.entry_or_create, ha, hl, hk, hamt,
      amount_check, hneg, hfresh, hlt, hb1]
  · intro out acct2 h hok
    by_cases hlt : acct.available < a
    · simp [perform_transaction, Bank.entry_or_create, ha, hl, hk, hamt,
        amount_check, hneg, hfresh, hlt, hb1] at h
      obtain rfl := h.symm
      simp at hok
    · exact le_of_not_lt hlt

/-- Concrete scenario for C5: client 1 has 3 available and withdraws 5. -/
def acctC5 : Account := { client := 1, available := 3, held := 0, locked := false }

def bankC5 : Bank :=
  { accounts := fun c => if c = 1 then some acctC5 else none,
    transactions := fun _ => none }

def tiC5 : TransactionInstruction :=
  { kind := TransactionInstructionKind.Withdrawal, client := 1, tx := 1,
    amount := some 5 }

/-- Witness for C5: withdrawing 5 from a balance of 3 fails with
`InsufficientFunds` and leaves the bank unchanged. -/
theorem C5_insufficient_funds_witness :
    perform_transaction bankC5 tiC5 =
      some (bankC5, Except.error Error.InsufficientFunds) :=
  (C5_insufficient_funds bankC5 tiC5 acctC5 5 rfl rfl rfl rfl rfl rfl).1
    (by decide)

/-! ### Single-branch evaluation lemmas -/

/-- Successful Deposit branch (`src/bank/mod.rs`, lines 71-83). -/
lemma pt_deposit (b : Bank) (ti : TransactionInstruction) (a : Decimal)
    (hk : ti.kind = TransactionInstructionKind.Deposit)
    (hl : (b.entry_or_create ti.client).locked = false)
    (hamt : ti.amount = some a)
    (hneg : is_sign_negative a = false)
    (hfresh : b.transactions ti.tx = none) :
    perform_transaction b ti =
      some ({ accounts := upd b.accounts ti.client
                { b.entry_or_create ti.client with
                  available := (b.entry_or_create ti.client).available + a },
              transactions := upd b.transactions ti.tx
                (Transaction.new ti.client ti.tx TransactionKind.Deposit a) },
            Except.ok { b.entry_or_create ti.client with
              available := (b.entry_or_create ti.client).available + a }) := by
  simp [perform_transaction, hl, hk, hamt, amount_check, hneg, hfresh,
    Transaction.try_from, upd_upd]

/-- Successful Withdrawal branch (`src/bank/mod.rs`, lines 84-102). -/
lemma pt_withdrawal (b : Bank) (ti : TransactionInstruction) (a : Decimal)
    (hk : ti.kind = TransactionInstructionKind.Withdrawal)
    (hl : (b.entry_or_create ti.client).locked = false)
    (hamt : ti.amount = some a)
    (hneg : is_sign_negative a = false)
    (hfresh : b.transactions ti.tx = none)
    (hfunds : ¬ (b.entry_or_create ti.client).available < a) :
    perform_transaction b ti =
      some ({ accounts := upd b.accounts ti.client
                { b.entry_or_create ti.client with
                  available := (b.entry_or_create ti.client).available - a },
              transactions := upd b.transactions ti.tx
                (Transaction.new ti.client ti.tx TransactionKind.Withdrawal a) },
            Except.ok { b.entry_or_create ti.client with
              available := (b.entry_or_create ti.client).available - a }) := by
  simp [perform_transaction, hl, hk, hamt, amount_check, hneg, hfresh,
    hfunds, Transaction.try_from, upd_upd]

/-- Applied Dispute branch (`src/bank/mod.rs`, lines 103-117): no
`is_disputed` precondition. -/
lemma pt_dispute (b : Bank) (ti : TransactionInstruction) (txn : Transaction)
    (hk : ti.kind = TransactionInstructionKind.Dispute)
    (hl : (b.entry_or_create ti.client).locked = false)
    (hneg : amount_check ti.amount = false)
    (ht : b.transactions ti.tx = some txn)
    (hc : txn.client = ti.client) :
    perform_transaction b ti =
      some ({ accounts := upd b.accounts ti.client
                { b.entry_or_create ti.client with
                  available := (b.entry_or_create ti.client).available - txn.amount,
                  held := (b.entry_or_create ti.client).held + txn.amount },
              transactions := upd b.transactions ti.tx
                (txn.amend TransactionAmendment.Dispute) },
            Except.ok { b.entry_or_create ti.client with
              available := (b.entry_or_create ti.client).available - txn.amount,
              held := (b.entry_or_create ti.client).held + txn.amount }) := by
  simp [perform_transaction, hl, hk, hneg, ht, hc, upd_upd]

/-- Applied Resolve branch (`src/bank/mod.rs`, lines 118-140). -/
lemma pt_resolve (b : Bank) (ti : TransactionInstruction) (txn : Transaction)
    (hk : ti.kind = TransactionInstructionKind.Resolve)
    (hl : (b.entry_or_create ti.client).locked = false)
    (hneg : amount_check ti.amount = false)
    (ht : b.transactions ti.tx = some txn)
    (hc : txn.client = ti.client)
    (hd : txn.is_disputed = true) :
    perform_transaction b ti =
      some ({ accounts := upd b.accounts ti.client
                { b.entry_or_create ti.client with
                  available := (b.entry_or_create ti.client).available + txn.amount,
                  held := (b.entry_or_create ti.client).held - txn.amount },
              transactions := upd b.transactions ti.tx
                (txn.amend TransactionAmendment.Resolve) },
            Except.ok { b.entry_or_create ti.client with
              available := (b.entry_or_create ti.client).available + txn.amount,
              held := (b.entry_or_create ti.client).held - txn.amount }) := by
  simp [perform_transaction, hl, hk, hneg, ht, hc, hd, upd_upd]

/-! ### Claim C6 -/

/-- Claim C6: on an existing transaction with matching client and an
unlocked account, a Dispute immediately followed by a Resolve returns the
available and held balances of the account to their exact pre-dispute values and
leaves the account unlocked. -/
theorem C6_dispute_resolve_roundtrip (b : Bank) (c : AccountId)
    (t : TransactionId) (txn : Transaction) (acct : Account)
    (ht : b.transactions t = some txn) (hc : txn.client = c)
    (ha : b.accounts c = some acct) (hl : acct.locked = false) :
    ∃ (b1 : Bank) (a1 : Account) (b2 : Bank) (a2 : Account),
      perform_transaction b
        { kind := TransactionInstructionKind.Dispute, client := c, tx := t,
          amount := none } = some (b1, Except.ok a1) ∧
      perform_transaction b1
        { kind := TransactionInstructionKind.Resolve, client := c, tx := t,
          amount := none } = some (b2, Except.ok a2) ∧
      a2.available = acct.available ∧ a2.held = acct.held ∧
      a2.locked = false ∧ b2.accounts c = some a2 := by
  have h1 : perform_transaction b
      { kind := TransactionInstructionKind.Dispute, client := c, tx := t,
        amount := none } =
      some ({ accounts := upd b.accounts c
                { acct with available := acct.available - txn.amount,
                            held := acct.held + txn.amount },
              transactions := upd b.transactions t
                (txn.amend TransactionAmendment.Dispute) },
            Except.ok { acct with
              available := acct.available - txn.amount,
              held := acct.held + txn.amount }) := by
    have h0 := pt_dispute b
      { kind := TransactionInstructionKind.Dispute, client := c, tx := t,
        amount := none } txn rfl (by simp [Bank.entry_or_create, ha, hl])
      rfl ht hc
    simpa [Bank.entry_or_create, ha] using h0
  have h2 : perform_transaction
      { accounts := upd b.accounts c
          { acct with available := acct.available - txn.amount,
                      held := acct.held + txn.amount },
        transactions := upd b.transactions t
          (txn.amend TransactionAmendment.Dispute) }
      { kind := TransactionInstructionKind.Resolve, client := c, tx := t,
        amount := none } =
      some ({ accounts := upd b.accounts c
                { acct with
                  available := acct.available - txn.amount + txn.amount,
                  held := acct.held + txn.amount - txn.amount },
              transactions := upd b.transactions t
                ((txn.amend TransactionAmendment.Dispute).amend
                  TransactionAmendment.Resolve) },
            Except.ok { acct with
              available := acct.available - txn.amount + txn.amount,
              held := acct.held + txn.amount - txn.amount }) := by
    have h0 := pt_resolve
      { accounts := upd b.accounts c
          { acct with available := acct.available - txn.amount,
                      held := acct.held + txn.amount },
        transactions := upd b.transactions t
          (txn.amend TransactionAmendment.Dispute) }
      { kind := TransactionInstructionKind.Resolve, client := c, tx := t,
        amount := none } (txn.amend TransactionAmendment.Dispute) rfl
      (by simp [Bank.entry_or_create, upd_at, hl]) rfl (upd_at _ _ _)
      (by simp [Transaction.amend, hc]) (is_disputed_amend_dispute txn)
    simpa [Bank.entry_or_create, upd_at, upd_upd, Transaction.amend] using h0
  refine ⟨_, _, _, _, h1, h2, ?_, ?_, ?_, upd_at _ _ _⟩
  · show acct.available - txn.amount + txn.amount = acct.available
    ring
  · show acct.held + txn.amount - txn.amount = acct.held
    ring
  · exact hl

/-- Concrete scenario for C6: client 1 has 2 available, 3 held, and a
realized deposit of 10 under transaction id 1. -/
def acctC6 : Account := { client := 1, available := 2, held := 3, locked := false }

def txnC6 : Transaction :=
  { client := 1, tx := 1, kind := TransactionKind.Deposit, amount := 10,
    amendment_history := [] }

def bankC6 : Bank :=
  { accounts := fun c => if c = 1 then some acctC6 else none,
    transactions := fun t => if t = 1 then some txnC6 else none }

/-- Witness for C6 at the concrete scenario. -/
theorem C6_dispute_resolve_roundtrip_witness :
    ∃ (b1 : Bank) (a1 : Account) (b2 : Bank) (a2 : Account),
      perform_transaction bankC6
        { kind := TransactionInstructionKind.Dispute, client := 1, tx := 1,
          amount := none } = some (b1, Except.ok a1) ∧
      perform_transaction b1
        { kind := TransactionInstructionKind.Resolve, client := 1, tx := 1,
          amount := none } = some (b2, Except.ok a2) ∧
      a2.available = acctC6.available ∧ a2.held = acctC6.held ∧
      a2.locked = false ∧ b2.accounts 1 = some a2 :=
  C6_dispute_resolve_roundtrip bankC6 1 1 txnC6 acctC6 rfl rfl rfl rfl

/-! ### Claim C7 -/

/-- Evaluation of `entry_or_create` after writing the very slot it reads. -/
lemma entry_or_create_upd (f : AccountId → Option Account)
    (g : TransactionId → Option Transaction) (c : AccountId) (v : Account) :
    (Bank.mk (upd f c v) g).entry_or_create c = v := by
  simp [Bank.entry_or_create, upd_at]

/-- A deposit instruction for client `c` built from a pair
(transaction id, amount). -/
def mkDeposit (c : AccountId) (p : TransactionId × Decimal) :
    TransactionInstruction :=
  { kind := TransactionInstructionKind.Deposit, client := c, tx := p.1,
    amount := some p.2 }

/-- Induction workhorse for C7: a run of fresh, pairwise-distinct,
non-negative deposits for one client succeeds and adds exactly the sum of
the amounts to the available balance (the rest of the account view is
unchanged). -/
lemma deposits_ok (c : AccountId) (l : List (TransactionId × Decimal)) :
    ∀ b : Bank, (b.entry_or_create c).locked = false →
      (∀ p ∈ l, is_sign_negative p.2 = false) →
      (∀ p ∈ l, b.transactions p.1 = none) →
      l.Pairwise (fun p q => p.1 ≠ q.1) →
      ∃ bf, applyAll b (l.map (mkDeposit c)) = some bf ∧
        bf.entry_or_create c =
          { b.entry_or_create c with
            available := (b.entry_or_create c).available +
              (l.map Prod.snd).sum } := by
  induction l with
  | nil =>
      intro b hl _ _ _
      exact ⟨b, rfl, by simp⟩
  | cons p rest ih =>
      intro b hl hneg hfresh hdist
      have h1 : perform_transaction b (mkDeposit c p) =
          some ({ accounts := upd b.accounts c
                    { b.entry_or_create c with
                      available := (b.entry_or_create c).available + p.2 },
                  transactions := upd b.transactions p.1
                    (Transaction.new c p.1 TransactionKind.Deposit p.2) },
                Except.ok { b.entry_or_create c with
                  available := (b.entry_or_create c).available + p.2 }) := by
        simpa [mkDeposit] using
          pt_deposit b (mkDeposit c p) p.2 rfl hl rfl
            (hneg p (List.mem_cons_self p rest))
            (hfresh p (List.mem_cons_self p rest))
      obtain ⟨bf, happ, hacct⟩ := ih
        { accounts := upd b.accounts c
            { b.entry_or_create c with
              available := (b.entry_or_create c).available + p.2 },
          transactions := upd b.transactions p.1
            (Transaction.new c p.1 TransactionKind.Deposit p.2) }
        (by rw [entry_or_create_upd]; exact hl)
        (fun q hq => hneg q (List.mem_cons_of_mem _ hq))
        (fun q hq => by
          show upd b.transactions p.1
            (Transaction.new c p.1 TransactionKind.Deposit p.2) q.1 = none
          rw [upd_ne _ _ _ _
            (Ne.symm ((List.pairwise_cons.mp hdist).1 q hq))]
          exact hfresh q (List.mem_cons_of_mem _ hq))
        (List.pairwise_cons.mp hdist).2
      refine ⟨bf, ?_, ?_⟩
      · rw [List.map_cons]
        unfold applyAll
        rw [h1]
        exact happ
      · rw [hacct, entry_or_create_upd]
        simp [add_assoc]

/-- Claim C7: for every sequence of valid Deposit instructions for one
client (pairwise-distinct transaction ids, non-negative amounts) applied to
the empty bank, every apply succeeds and the final account has available
equal to the sum of the deposited amounts and held equal to 0. -/
theorem C7_deposit_sum (c : AccountId) (l : List (TransactionId × Decimal))
    (hneg : ∀ p ∈ l, is_sign_negative p.2 = false)
    (hdist : l.Pairwise (fun p q => p.1 ≠ q.1)) :
    ∃ bf, applyAll Bank.new (l.map (mkDeposit c)) = some bf ∧
      (bf.entry_or_create c).available = (l.map Prod.snd).sum ∧
      (bf.entry_or_create c).held = 0 := by
  obtain ⟨bf, h1, h2⟩ :=
    deposits_ok c l Bank.new rfl hneg (fun p _ => rfl) hdist
  refine ⟨bf, h1, ?_, ?_⟩
  · rw [h2]; simp [Bank.new, Bank.entry_or_create, Account.new]
  · rw [h2]; simp [Bank.new, Bank.entry_or_create, Account.new]

/-- Witness for C7: two deposits of 3 and 4 for client 7 starting from the
empty bank end with 7 available and 0 held. -/
theorem C7_deposit_sum_witness :
    ∃ bf, applyAll Bank.new ([(1, 3), (2, 4)].map (mkDeposit 7)) = some bf ∧
      (bf.entry_or_create 7).available = ([(1, 3), (2, 4)].map Prod.snd).sum ∧
      (bf.entry_or_create 7).held = 0 :=
  C7_deposit_sum 7 [(1, 3), (2, 4)] (by decide) (by decide)

/-! ### Claim C8 -/

/-- Claim C8: a (non-panicking) call to `perform_transaction` mutates at
most the account keyed by the client of the instruction and the ledger
entry keyed by the tx of the instruction; every other account and entry is
unchanged, whether the result is success, error or no-op. -/
theorem C8_frame (b : Bank) (ti : TransactionInstruction)
    (out : Bank × Except Error Account)
    (h : perform_transaction b ti = some out) :
    (∀ c, c ≠ ti.client → out.1.accounts c = b.accounts c) ∧
    (∀ t, t ≠ ti.tx → out.1.transactions t = b.transactions t) :=
  pt_frame b ti out h

/-- Concrete deposit call for the C8 witness. -/
def tiC8 : TransactionInstruction :=
  { kind := TransactionInstructionKind.Deposit, client := 1, tx := 1,
    amount := some 5 }

def outC8 : Bank × Except Error Account :=
  ({ accounts := upd (upd Bank.new.accounts 1 (Account.new 1)) 1
       { Account.new 1 with available := (Account.new 1).available + 5 },
     transactions := upd Bank.new.transactions 1
       (Transaction.new 1 1 TransactionKind.Deposit 5) },
   Except.ok { Account.new 1 with available := (Account.new 1).available + 5 })

/-- Witness for C8: a deposit for client 1, tx 1 leaves the slot of client 0 and
ledger entry 0 untouched. -/
theorem C8_frame_witness :
    outC8.1.accounts 0 = Bank.new.accounts 0 ∧
    outC8.1.transactions 0 = Bank.new.transactions 0 :=
  ⟨(C8_frame Bank.new tiC8 outC8 rfl).1 0 (by decide),
   (C8_frame Bank.new tiC8 outC8 rfl).2 0 (by decide)⟩

/-! ### Claim C9 -/

/-- Claim C9: the Dispute branch applies `available -= amount`,
`held += amount` and the history append unconditionally whenever the
referenced transaction exists with matching client on an unlocked account,
so `n` consecutive Disputes on the same transaction move `n` times its
amount from available to held and append `n` Dispute entries. -/
theorem C9_n_disputes (b : Bank) (c : AccountId) (t : TransactionId)
    (txn : Transaction) (acct : Account) (n : ℕ)
    (ht : b.transactions t = some txn) (hc : txn.client = c)
    (ha : b.accounts c = some acct) (hl : acct.locked = false) :
    ∃ bf, applyAll b (List.replicate n
        { kind := TransactionInstructionKind.Dispute, client := c, tx := t,
          amount := none }) = some bf ∧
      bf.accounts c = some { acct with
        available := acct.available - (n : Decimal) * txn.amount,
        held := acct.held + (n : Decimal) * txn.amount } ∧
      bf.transactions t = some { txn with amendment_history :=
        (txn.amendment_history ++
          List.replicate n TransactionAmendment.Dispute) } := by
  induction n generalizing b txn acct with
  | zero => exact ⟨b, rfl, by simp [ha], by simp [ht]⟩
  | succ n ih =>
      have h1 : perform_transaction b
          { kind := TransactionInstructionKind.Dispute, client := c, tx := t,
            amount := none } =
          some ({ accounts := upd b.accounts c
                    { acct with available := acct.available - txn.amount,
                                held := acct.held + txn.amount },
                  transactions := upd b.transactions t
                    (txn.amend TransactionAmendment.Dispute) },
                Except.ok { acct with
                  available := acct.available - txn.amount,
                  held := acct.held + txn.amount }) := by
        have h0 := pt_dispute b
          { kind := TransactionInstructionKind.Dispute, client := c, tx := t,
            amount := none } txn rfl (by simp [Bank.entry_or_create, ha, hl])
          rfl ht hc
        simpa [Bank.entry_or_create, ha] using h0
      obtain ⟨bf, happ, hacc, htx⟩ := ih
        { accounts := upd b.accounts c
            { acct with available := acct.available - txn.amount,
                        held := acct.held + txn.amount },
          transactions := upd b.transactions t
            (txn.amend TransactionAmendment.Dispute) }
        (txn.amend TransactionAmendment.Dispute)
        { acct with available := acct.available - txn.amount,
                    held := acct.held + txn.amount }
        (upd_at _ _ _)
        (by simp [Transaction.amend, hc])
        (upd_at _ _ _)
        hl
      refine ⟨bf, ?_, ?_, ?_⟩
      · rw [List.replicate_succ]
        unfold applyAll
        rw [h1]
        exact happ
      · rw [hacc]
        simp only [Transaction.amend, Option.some.injEq, Account.mk.injEq,
          true_and, and_true]
        constructor <;> (push_cast; ring)
      · rw [htx]
        simp [Transaction.amend, List.replicate_succ, List.append_assoc]

/-- Concrete scenario for C9: a deposit of 10 for client 1 disputed twice. -/
def acctC9 : Account := { client := 1, available := 10, held := 0, locked := false }

def txnC9 : Transaction :=
  { client := 1, tx := 1, kind := TransactionKind.Deposit, amount := 10,
    amendment_history := [] }

def bankC9 : Bank :=
  { accounts := fun c => if c = 1 then some acctC9 else none,
    transactions := fun t => if t = 1 then some txnC9 else none }

/-- Witness for C9: two consecutive disputes of the same deposit of 10 move
20 from available into held and append two Dispute entries. -/
theorem C9_n_disputes_witness :
    ∃ bf, applyAll bankC9 (List.replicate 2
        { kind := TransactionInstructionKind.Dispute, client := 1, tx := 1,
          amount := none }) = some bf ∧
      bf.accounts 1 = some { acctC9 with
        available := acctC9.available - ((2 : ℕ) : Decimal) * txnC9.amount,
        held := acctC9.held + ((2 : ℕ) : Decimal) * txnC9.amount } ∧
      bf.transactions 1 = some { txnC9 with amendment_history :=
        (txnC9.amendment_history ++
          List.replicate 2 TransactionAmendment.Dispute) } :=
  C9_n_disputes bankC9 1 1 txnC9 acctC9 2 rfl rfl rfl rfl

/-! ### Claim C10 -/

/-- Claim C10: `perform_transaction` never panics (the model never returns
`none`) on an instruction whose amount is present whenever its kind is
Deposit or Withdrawal — under that precondition every `unwrap` in the
source is unreachable, for every bank state. -/
theorem C10_no_panic (b : Bank) (ti : TransactionInstruction)
    (h : (ti.kind = TransactionInstructionKind.Deposit ∨
          ti.kind = TransactionInstructionKind.Withdrawal) →
      ∃ a, ti.amount = some a) :
    perform_transaction b ti ≠ none := by
  intro hn
  simp only [perform_transaction] at hn
  repeat' split at hn
  all_goals simp_all [Transaction.try_from]

/-- Witness for C10: a plain deposit into the empty bank does not panic. -/
theorem C10_no_panic_witness :
    perform_transaction Bank.new
      { kind := TransactionInstructionKind.Deposit, client := 1, tx := 1,
        amount := some 5 } ≠ none :=
  C10_no_panic Bank.new
    { kind := TransactionInstructionKind.Deposit, client := 1, tx := 1,
      amount := some 5 } (fun _ => ⟨5, rfl⟩)

end Transactomatic
